import Mathlib

/-
  Verification of the myfind concurrent file-search program.

  Shallow embedding of `src/myfind.cpp` (the primary variant) and, where a
  claim references them, of the variant translation units `src/unnamed/part_001`
  (function `find_file`, which restricts matches to regular files) and
  `src/unnamed/part_003` (the temp-file-buffering variant of `searchForFile`
  and `main`).

  Modelling conventions:
  * A directory tree is an inductive `FSNode` value.  Each directory carries a
    `DirStatus` describing what happens when the walk opens it: `ok` (readable),
    `denied` (permission denied — with `std::filesystem::directory_options::
    skip_permission_denied` the directory entry itself is yielded but not
    descended into, and a denied root yields an empty range), or `ioErr`
    (opening it throws a non-permission filesystem error, which aborts the
    C++ iterator: the exception propagates to the caller).
  * `walk` returns the list of entries yielded before completion or abort,
    plus a Bool that is `true` iff the traversal threw.
  * `searchForFile` returns the events printed on stdout and on stderr, in
    emission order, as the C++ function does for one child process:
    `getpid()` is the `pid` parameter, `e.what()` the `errDetail` parameter.
  * `mainRun` models `main` after argument parsing (argument parsing is an
    external collaborator per the spec): the directory-validity check, the
    fork loop, and the semaphore fan-in.  The semaphore is created with
    `sem_init(&semaphore, 0, 0)` — `pshared = 0`, i.e. shared only between
    the threads of one process — and the workers are forked processes, so a
    child's `sem_post` increments the child's copy-on-write copy of the
    semaphore and is never visible to the parent.  The parent's fan-in of
    `filenames.size()` `sem_wait` calls therefore terminates only when it
    performs zero waits; for any nonempty target list the parent blocks
    forever, modelled as `none` (no exit status is ever returned; the started
    children still run `searchForFile`, whose output is modelled separately).
  * `part003Run` has no such deadlock: that variant reaps children with
    `while (wait(NULL) > 0)` and uses no semaphore.
-/

namespace Myfind

inductive DirStatus where
  | ok
  | denied
  | ioErr
  deriving DecidableEq, Repr

mutual
/-- One filesystem node.  (`FSNode`/`FSForest` are a mutual pair rather than
`FSNode`/`List FSNode` so that the walk below is structurally recursive and
evaluates by kernel reduction.) -/
inductive FSNode where
  | file (name : String)
  | dir (name : String) (status : DirStatus) (children : FSForest)
  | other (name : String)
  deriving Repr

/-- A list of sibling filesystem nodes, in directory order. -/
inductive FSForest where
  | nil
  | cons (head : FSNode) (tail : FSForest)
  deriving Repr
end

inductive NodeType where
  | regular
  | directory
  | otherType
  deriving DecidableEq, Repr

structure Entry where
  name : String
  ntype : NodeType
  path : String
  deriving DecidableEq, Repr

/-- ASCII lower-casing of one character, as `strcasecmp` performs byte-wise
in the C locale: letters A–Z map to a–z, every other byte is unchanged. -/
def asciiToLower (c : Char) : Char :=
  if 'A' ≤ c ∧ c ≤ 'Z' then Char.ofNat (c.toNat + 32) else c

/-- Equality modulo ASCII case, the `strcasecmp(a, b) == 0` test. -/
def strcasecmpEq (a b : String) : Bool :=
  a.data.map asciiToLower == b.data.map asciiToLower

/-- `isMatchingFilename` from `src/myfind.cpp` (identical in every variant),
with the global flag `caseInsensetiveSearch` passed as a parameter. -/
def isMatchingFilename (caseInsensetive : Bool) (file1 file2 : String) : Bool :=
  if caseInsensetive then strcasecmpEq file1 file2 else file1 == file2

/-- The entry a directory iterator yields for a node that is a direct child of
directory `parent`. -/
def entryOf (parent : String) : FSNode → Entry
  | .file n => ⟨n, .regular, parent ++ "/" ++ n⟩
  | .dir n _ _ => ⟨n, .directory, parent ++ "/" ++ n⟩
  | .other n => ⟨n, .otherType, parent ++ "/" ++ n⟩

/-- Depth-first traversal of a sibling list, as
`fs::recursive_directory_iterator` with `skip_permission_denied` visits it:
each entry is yielded, readable subdirectories are descended into, denied
subdirectories are skipped silently, and a subdirectory whose opening throws
a non-permission error aborts the whole iteration (second component `true`). -/
def walkForest (parent : String) : FSForest → List Entry × Bool
  | .nil => ([], false)
  | .cons n rest =>
      match n with
      | .file nm =>
          let r := walkForest parent rest
          (⟨nm, .regular, parent ++ "/" ++ nm⟩ :: r.1, r.2)
      | .other nm =>
          let r := walkForest parent rest
          (⟨nm, .otherType, parent ++ "/" ++ nm⟩ :: r.1, r.2)
      | .dir nm st children =>
          let e : Entry := ⟨nm, .directory, parent ++ "/" ++ nm⟩
          match st with
          | .denied =>
              let r := walkForest parent rest
              (e :: r.1, r.2)
          | .ioErr => ([e], true)
          | .ok =>
              let c := walkForest (parent ++ "/" ++ nm) children
              if c.2 then (e :: c.1, true)
              else
                let r := walkForest parent rest
                (e :: c.1 ++ r.1, r.2)

/-- The entries `fs::directory_iterator` yields: the direct children only,
none descended into, no abort. -/
def flatEntries (parent : String) : FSForest → List Entry
  | .nil => []
  | .cons n rest => entryOf parent n :: flatEntries parent rest

/-- The walk driven by `searchForFile`: `fs::recursive_directory_iterator`
when `recursive` (the `-R` flag), `fs::directory_iterator` otherwise, both
with `skip_permission_denied`.  `rootStatus`/`children` describe the root
directory, `rootPath` its (absolute) path. -/
def walk (recursive : Bool) (rootPath : String) (rootStatus : DirStatus)
    (children : FSForest) : List Entry × Bool :=
  match rootStatus with
  | .ioErr => ([], true)
  | .denied => ([], false)
  | .ok =>
      if recursive then walkForest rootPath children
      else (flatEntries rootPath children, false)

inductive MatchEvent where
  | found (pid : Nat) (target : String) (path : String)
  | notFound (pid : Nat) (target : String) (root : String)
  | walkError (dirPath : String) (detail : String)
  deriving DecidableEq, Repr

def isFoundEvent : MatchEvent → Bool
  | .found _ _ _ => true
  | _ => false

def isNotFoundEvent : MatchEvent → Bool
  | .notFound _ _ _ => true
  | _ => false

def isWalkErrorEvent : MatchEvent → Bool
  | .walkError _ _ => true
  | _ => false

def countFound (l : List MatchEvent) : Nat := l.countP isFoundEvent

def countNotFound (l : List MatchEvent) : Nat := l.countP isNotFoundEvent

/-- `searchForFile` from `src/myfind.cpp`: walks the tree, prints one `Found`
line per matching entry as discovered (no file-type restriction), then a
`Not found` line if nothing matched; the whole traversal sits in one
`try`/`catch`, so an exception thrown by the iterator jumps past the
`if (!found)` test and prints a single diagnostic on stderr instead.
Result: (stdout events, stderr events). -/
def searchForFile (caseInsensetive recursive : Bool) (pid : Nat)
    (rootPath : String) (rootStatus : DirStatus) (children : FSForest)
    (filename errDetail : String) : List MatchEvent × List MatchEvent :=
  let w := walk recursive rootPath rootStatus children
  let hits := w.1.filter (fun e => isMatchingFilename caseInsensetive e.name filename)
  let founds := hits.map (fun e => MatchEvent.found pid filename e.path)
  if w.2 then (founds, [MatchEvent.walkError rootPath errDetail])
  else if hits.isEmpty then ([MatchEvent.notFound pid filename rootPath], [])
  else (founds, [])

/-- `find_file` from `src/unnamed/part_001`: same walk, but an entry is
reported only when `entry.is_regular_file()` holds, and no `Not found` line
is ever printed; there is no `try`/`catch`, so the Bool records whether an
iterator exception escaped (the events listed were printed before it). -/
def find_file (caseInsensitive recursive : Bool) (pid : Nat)
    (rootPath : String) (rootStatus : DirStatus) (children : FSForest)
    (filename : String) : List MatchEvent × Bool :=
  let w := walk recursive rootPath rootStatus children
  let hits := w.1.filter (fun e =>
    e.ntype == NodeType.regular && isMatchingFilename caseInsensitive e.name filename)
  (hits.map (fun e => MatchEvent.found pid filename e.path), w.2)

/-- C++ stream insertion of a `std::filesystem::path` applies `std::quoted`:
it escapes every embedded double quote and backslash with a backslash. -/
def cppQuoteChars (cs : List Char) : List Char :=
  cs.foldr (fun c acc => if c = '"' ∨ c = '\\' then '\\' :: c :: acc else c :: acc) []

/-- The characters `operator<<` actually writes for a path: the escaped text
wrapped in double quotes. -/
def cppQuote (s : String) : String :=
  String.mk ('"' :: (cppQuoteChars s.data ++ ['"']))

/-- The stdout line `src/myfind.cpp` prints for a match:
`std::cout << getpid() << ": " << filename << ": " << fs::absolute(entry.path()) << "\n"`
(the path is inserted as an `fs::path`, hence quoted). -/
def renderFound (pid : Nat) (target path : String) : String :=
  toString pid ++ ": " ++ target ++ ": " ++ cppQuote path

/-- The stdout line for a miss:
`std::cout << getpid() << ": " << filename << ": Not found in " << fs::absolute(directory) << "\n"`. -/
def renderNotFound (pid : Nat) (target root : String) : String :=
  toString pid ++ ": " ++ target ++ ": Not found in " ++ cppQuote root

/-- The stderr diagnostic from the `catch` block:
`std::cerr << "Error accessing " << directory << ": " << e.what() << "\n"`
(here `directory` is a `std::string`, so it is not quoted). -/
def renderWalkError (dirPath detail : String) : String :=
  "Error accessing " ++ dirPath ++ ": " ++ detail

def render : MatchEvent → String
  | .found p t path => renderFound p t path
  | .notFound p t r => renderNotFound p t r
  | .walkError d det => renderWalkError d det

/-- Modelled from the spec: the rendering format §4.4 states for `Found`
events, `"<taskId>: <targetName>: <absolutePath>"`, with the path inserted
verbatim.  Kept separate from `renderFound` (the code's behaviour) so the two
can be compared. -/
def specRenderFound (pid : Nat) (target path : String) : String :=
  toString pid ++ ": " ++ target ++ ": " ++ path

/-- Modelled from the spec: the §4.4 format
`"<taskId>: <targetName>: Not found in <rootDir>"` for `NotFound` events. -/
def specRenderNotFound (pid : Nat) (target root : String) : String :=
  toString pid ++ ": " ++ target ++ ": Not found in " ++ root

def invalidRootMsg (rootPath : String) : String :=
  "Error: Invalid or non-existent directory: " ++ rootPath

def forkFailMsg (filename : String) : String :=
  "Error: Failed to create process for " ++ filename

structure RunResult where
  exitCode : Nat
  workersStarted : Nat
  stdoutLines : List String
  stderrLines : List String
  filesCreated : List String
  filesLeftBehind : List String
  deriving DecidableEq, Repr

/-- `main` from `src/myfind.cpp` after option parsing (parsing is an external
collaborator per the spec): validates the root directory, forks one child per
filename (`forkOk i` tells whether the `fork()` for the i-th filename
succeeds, `pidOf i` the child's pid), then runs the fan-in loop of
`filenames.size()` `sem_wait` calls.  The semaphore was created with
`sem_init(&semaphore, 0, 0)`: `pshared = 0` makes it shared between the
threads of one process only, yet the workers are `fork()`ed processes, so
the `sem_post` each child executes at the end of `searchForFile` increments
the child's own copy-on-write copy — the parent observes zero posts, ever.
The fan-in therefore terminates exactly when it performs zero waits, i.e.
when the target list is empty; for any nonempty target list the parent
blocks forever in its first `sem_wait`, modelled as `none`: no exit status —
success or failure — is ever returned (the started children still run
`searchForFile` and print; their behaviour is modelled by `searchForFile`
itself, not tied to a parent result that never materialises).  The fork
outcomes and tree shape cannot influence the parent's returned value, which
is why those parameters are unused below.  `filesCreated`/`filesLeftBehind`
record the filesystem footprint of the run; this variant only ever reads
directories. -/
def mainRun (_caseInsensetive _recursive : Bool) (rootValid : Bool)
    (rootPath : String) (_rootStatus : DirStatus) (_children : FSForest)
    (filenames : List String) (_forkOk : Nat → Bool) (_pidOf : Nat → Nat)
    (_errDetail : String) : Option RunResult :=
  if rootValid then
    if filenames.length = 0 then
      some { exitCode := 0, workersStarted := 0, stdoutLines := []
             stderrLines := [], filesCreated := [], filesLeftBehind := [] }
    else
      none
  else
    some { exitCode := 1, workersStarted := 0, stdoutLines := []
           stderrLines := [invalidRootMsg rootPath]
           filesCreated := [], filesLeftBehind := [] }

/-- The temp-file path a `src/unnamed/part_003` child writes its results to:
`"/tmp/myfind_" + std::to_string(getpid()) + ".log"`. -/
def tempFileName (pid : Nat) : String :=
  "/tmp/myfind_" ++ toString pid ++ ".log"

/-- `searchForFile` from `src/unnamed/part_003`: same walk and match test as
`src/myfind.cpp` (no file-type restriction), but every line — including the
`catch` block's error line — is written into the task's temp file, whose
content this function returns. -/
def searchForFile3 (caseInsensitive recursive : Bool) (pid : Nat)
    (rootPath : String) (rootStatus : DirStatus) (children : FSForest)
    (filename errDetail : String) : List String :=
  let w := walk recursive rootPath rootStatus children
  let hits := w.1.filter (fun e => isMatchingFilename caseInsensitive e.name filename)
  let founds := hits.map (fun e => renderFound pid filename e.path)
  if w.2 then founds ++ [renderWalkError rootPath errDetail]
  else if hits.isEmpty then [renderNotFound pid filename rootPath] else founds

/-- `main` from `src/unnamed/part_003`: validates the root, forks one child
per filename, each started child buffers its output in `/tmp/myfind_<pid>.log`,
the parent reaps children with `while (wait(NULL) > 0)` (which terminates even
if some forks failed), then copies each temp file to stdout and removes it.
`filesCreated` lists the temp files that existed during the run;
`filesLeftBehind` is what survives it. -/
def part003Run (caseInsensitive recursive rootValid : Bool) (rootPath : String)
    (rootStatus : DirStatus) (children : FSForest) (filenames : List String)
    (forkOk : Nat → Bool) (pidOf : Nat → Nat) (errDetail : String) : RunResult :=
  if rootValid then
    let idx := List.range filenames.length
    let started := idx.filter forkOk
    let failed := idx.filter (fun i => !(forkOk i))
    let outs := started.map (fun i =>
      searchForFile3 caseInsensitive recursive (pidOf i) rootPath rootStatus
        children (filenames.getD i "") errDetail)
    { exitCode := 0
      workersStarted := started.length
      stdoutLines := outs.flatten
      stderrLines := failed.map (fun i => forkFailMsg (filenames.getD i ""))
      filesCreated := started.map (fun i => tempFileName (pidOf i))
      filesLeftBehind := [] }
  else
    { exitCode := 1, workersStarted := 0, stdoutLines := []
      stderrLines := [invalidRootMsg rootPath]
      filesCreated := [], filesLeftBehind := [] }

/-- `true` when no directory anywhere in the forest opens with a
non-permission I/O error (`denied` directories are allowed). -/
def noIOErr : FSForest → Bool
  | .nil => true
  | .cons (.file _) rest => noIOErr rest
  | .cons (.other _) rest => noIOErr rest
  | .cons (.dir _ st children) rest =>
      (st != DirStatus.ioErr) && noIOErr children && noIOErr rest

/-- `true` when the forest contains at least one regular file, at any depth. -/
def containsRegularFile : FSForest → Bool
  | .nil => false
  | .cons (.file _) _ => true
  | .cons (.other _) rest => containsRegularFile rest
  | .cons (.dir _ _ children) rest =>
      containsRegularFile children || containsRegularFile rest

/-! ### Helper lemmas -/

theorem countP_founds_notFound (l : List Entry) (pid : Nat) (t : String) :
    (l.map (fun e => MatchEvent.found pid t e.path)).countP isNotFoundEvent = 0 := by
  rw [List.countP_map]
  exact List.countP_eq_zero.mpr (fun a _ => by simp [Function.comp, isNotFoundEvent])

theorem countP_founds_found (l : List Entry) (pid : Nat) (t : String) :
    (l.map (fun e => MatchEvent.found pid t e.path)).countP isFoundEvent = l.length := by
  rw [List.countP_map]
  simpa using List.countP_eq_length.mpr (fun a _ => by simp [Function.comp, isFoundEvent])

theorem founds_no_walkError (l : List Entry) (pid : Nat) (t : String) :
    ((l.map (fun e => MatchEvent.found pid t e.path)).all
      (fun e => !(isWalkErrorEvent e))) = true := by
  rw [List.all_eq_true]
  intro e he
  obtain ⟨a, _, rfl⟩ := List.mem_map.mp he
  simp [isWalkErrorEvent]

theorem filter_isFound_founds (l : List Entry) (pid : Nat) (t : String) :
    (l.map (fun e => MatchEvent.found pid t e.path)).filter isFoundEvent
      = l.map (fun e => MatchEvent.found pid t e.path) := by
  apply List.filter_eq_self.mpr
  intro e he
  obtain ⟨a, _, rfl⟩ := List.mem_map.mp he
  simp [isFoundEvent]

/-- A forest without I/O-error directories is walked to completion: the
recursive iterator never throws on it. -/
theorem walkForest_no_abort : ∀ (parent : String) (ns : FSForest),
    noIOErr ns = true → (walkForest parent ns).2 = false
  | _, .nil, _ => by simp [walkForest]
  | parent, .cons (.file n) rest, h => by
      have hr := walkForest_no_abort parent rest (by simpa [noIOErr] using h)
      simp [walkForest, hr]
  | parent, .cons (.other n) rest, h => by
      have hr := walkForest_no_abort parent rest (by simpa [noIOErr] using h)
      simp [walkForest, hr]
  | parent, .cons (.dir n st children) rest, h => by
      simp only [noIOErr, Bool.and_eq_true, bne_iff_ne, ne_eq] at h
      obtain ⟨⟨hst, hc⟩, hr⟩ := h
      have ihc := walkForest_no_abort (parent ++ "/" ++ n) children hc
      have ihr := walkForest_no_abort parent rest hr
      cases st with
      | ioErr => exact absurd rfl hst
      | denied => simp [walkForest, ihr]
      | ok => simp [walkForest, ihc, ihr]

/-- The walk of a forest without I/O-error directories never aborts, in
either mode. -/
theorem walk_no_abort (recursive : Bool) (rootPath : String) (st : DirStatus)
    (children : FSForest) (hst : st ≠ DirStatus.ioErr)
    (hc : noIOErr children = true) :
    (walk recursive rootPath st children).2 = false := by
  cases st with
  | ioErr => exact absurd rfl hst
  | denied => simp [walk]
  | ok =>
      cases recursive with
      | true => simpa [walk] using walkForest_no_abort rootPath children hc
      | false => simp [walk]

/-! ### Claim theorems -/

/-- C10: `isMatchingFilename` with the case-insensitive flag off holds exactly
on byte-for-byte equal strings; with the flag on it folds ASCII letter case,
so `Report.TXT` matches `report.txt` case-insensitively but not
case-sensitively. -/
theorem isMatchingFilename_spec :
    (∀ candidate target : String,
        isMatchingFilename false candidate target = true ↔ candidate = target) ∧
    isMatchingFilename true "Report.TXT" "report.txt" = true ∧
    isMatchingFilename false "Report.TXT" "report.txt" = false := by
  refine ⟨fun c t => ?_, by decide, by decide⟩
  simp [isMatchingFilename]

/-- C5: with an invalid root directory (nonexistent or not a directory),
`main` prints the error and returns `EXIT_FAILURE` before the fork loop:
zero workers are started and the match stream stays empty. -/
theorem invalidRoot_no_workers_no_output (ci rcv : Bool) (rootPath : String)
    (st : DirStatus) (children : FSForest) (filenames : List String)
    (forkOk : Nat → Bool) (pidOf : Nat → Nat) (d : String) :
    mainRun ci rcv false rootPath st children filenames forkOk pidOf d
      = some { exitCode := 1, workersStarted := 0, stdoutLines := []
               stderrLines := [invalidRootMsg rootPath]
               filesCreated := [], filesLeftBehind := [] } := by
  simp [mainRun]

/-- C1 (amended): provided the walk completes without an uncaught error, a
`searchForFile` task emits at least one `Found` or exactly one terminal
`NotFound`; unconditionally, a `NotFound` is only ever emitted as the sole
event of the task (so never after a `Found`), and a task that emitted any
`Found` emits no `NotFound`.  (The unamended claim fails when the walk
aborts: the task may then emit zero `Found` and zero `NotFound`.) -/
theorem searchForFile_terminal_invariant (ci rcv : Bool) (pid : Nat)
    (rootPath : String) (st : DirStatus) (children : FSForest)
    (filename d : String) :
    (countNotFound (searchForFile ci rcv pid rootPath st children filename d).1 = 1 →
      (searchForFile ci rcv pid rootPath st children filename d).1
        = [MatchEvent.notFound pid filename rootPath]) ∧
    (1 ≤ countFound (searchForFile ci rcv pid rootPath st children filename d).1 →
      countNotFound (searchForFile ci rcv pid rootPath st children filename d).1 = 0) ∧
    ((walk rcv rootPath st children).2 = false →
      1 ≤ countFound (searchForFile ci rcv pid rootPath st children filename d).1 ∨
      countNotFound (searchForFile ci rcv pid rootPath st children filename d).1 = 1) := by
  simp only [searchForFile]
  generalize walk rcv rootPath st children = w
  obtain ⟨entries, ab⟩ := w
  cases ab with
  | true =>
      simp only [if_true, countFound, countNotFound, countP_founds_notFound]
      refine ⟨fun h => absurd h (by simp), fun _ => trivial, fun h => by simp at h⟩
  | false =>
      by_cases h : entries.filter (fun e => isMatchingFilename ci e.name filename) = []
      · simp [h, countFound, countNotFound, isNotFoundEvent, isFoundEvent,
          List.countP_cons]
      · have hlen : 1 ≤ (entries.filter
            (fun e => isMatchingFilename ci e.name filename)).length :=
          Nat.one_le_iff_ne_zero.mpr (fun hz => h (List.eq_nil_of_length_eq_zero hz))
        simp only [Bool.false_eq_true, if_false, List.isEmpty_iff, h, countFound,
          countNotFound, countP_founds_notFound, countP_founds_found]
        exact ⟨fun hc => absurd hc (by simp), fun _ => trivial, fun _ => Or.inl hlen⟩

/-- C1 witness: on an empty, error-free directory the invariant's terminal
branch fires: exactly one `NotFound` is emitted. -/
theorem searchForFile_terminal_invariant_witness :
    1 ≤ countFound (searchForFile false false 3 "/r" DirStatus.ok FSForest.nil "a.txt" "e").1 ∨
    countNotFound (searchForFile false false 3 "/r" DirStatus.ok FSForest.nil "a.txt" "e").1 = 1 :=
  (searchForFile_terminal_invariant false false 3 "/r" DirStatus.ok FSForest.nil "a.txt" "e").2.2
    (by decide)

/-- C1 counterexample: when opening the subdirectory `d` of the root throws a
non-permission error before any match, the `catch` block skips the
`if (!found)` test, so the task emits zero `Found` events and zero `NotFound`
events — the claim's "at least one `Found` or exactly one terminal `NotFound`"
fails on this tree. -/
theorem searchForFile_error_emits_nothing :
    countFound (searchForFile false true 3 "/r" DirStatus.ok
        (FSForest.cons (FSNode.dir "d" DirStatus.ioErr FSForest.nil) FSForest.nil) "a.txt" "boom").1 = 0 ∧
    countNotFound (searchForFile false true 3 "/r" DirStatus.ok
        (FSForest.cons (FSNode.dir "d" DirStatus.ioErr FSForest.nil) FSForest.nil) "a.txt" "boom").1 = 0 := by
  decide

/-- C3 (amended): `src/myfind.cpp` emits a `Found` event for every walked
entry whose basename matches the target under the case policy, regardless of
node type — directory entries are reported as matches too; only the
`find_file` variant (`src/unnamed/part_001`) restricts reporting to
regular-file entries. -/
theorem found_condition_ignores_node_type (ci rcv : Bool) (pid : Nat)
    (rootPath : String) (st : DirStatus) (children : FSForest)
    (filename d : String) :
    (searchForFile ci rcv pid rootPath st children filename d).1.filter isFoundEvent
      = ((walk rcv rootPath st children).1.filter
          (fun e => isMatchingFilename ci e.name filename)).map
          (fun e => MatchEvent.found pid filename e.path) ∧
    (find_file ci rcv pid rootPath st children filename).1
      = ((walk rcv rootPath st children).1.filter
          (fun e => e.ntype == NodeType.regular
            && isMatchingFilename ci e.name filename)).map
          (fun e => MatchEvent.found pid filename e.path) := by
  constructor
  · simp only [searchForFile]
    generalize walk rcv rootPath st children = w
    obtain ⟨entries, ab⟩ := w
    cases ab with
    | true =>
        rw [if_pos rfl]
        exact filter_isFound_founds _ pid filename
    | false =>
        rw [if_neg (by simp)]
        by_cases h :
            entries.filter (fun e => isMatchingFilename ci e.name filename) = []
        · simp [h, isFoundEvent]
        · rw [if_neg (by simpa [List.isEmpty_iff] using h)]
          exact filter_isFound_founds _ pid filename
  · rfl

/-- C3 counterexample: a directory named `a.txt` (the tree holds no regular
file at all) is reported by `src/myfind.cpp` as a `Found` match — the claim
that only regular files are reported fails on the primary variant. -/
theorem directory_entry_reported_as_match :
    containsRegularFile
        (FSForest.cons (FSNode.dir "a.txt" DirStatus.ok FSForest.nil)
          FSForest.nil) = false ∧
    (searchForFile false true 7 "/r" DirStatus.ok
        (FSForest.cons (FSNode.dir "a.txt" DirStatus.ok FSForest.nil)
          FSForest.nil) "a.txt" "e").1
      = [MatchEvent.found 7 "a.txt" "/r/a.txt"] := by
  decide

/-- C4 (amended): an uncaught walk-level error makes `searchForFile` emit a
single `WalkError` diagnostic on stderr and terminate the traversal — no
`NotFound` is emitted afterwards; on a tree whose directories open without
non-permission errors (denied directories allowed, they are skipped
silently), the walk completes and no diagnostic is emitted. -/
theorem walk_error_aborts_traversal (ci rcv : Bool) (pid : Nat)
    (rootPath : String) (st : DirStatus) (children : FSForest)
    (filename d : String) :
    ((walk rcv rootPath st children).2 = true →
      (searchForFile ci rcv pid rootPath st children filename d).2
          = [MatchEvent.walkError rootPath d] ∧
      countNotFound (searchForFile ci rcv pid rootPath st children filename d).1
          = 0) ∧
    (st ≠ DirStatus.ioErr → noIOErr children = true →
      (walk rcv rootPath st children).2 = false ∧
      (searchForFile ci rcv pid rootPath st children filename d).2 = []) := by
  constructor
  · intro hab
    have hs : searchForFile ci rcv pid rootPath st children filename d =
        (((walk rcv rootPath st children).1.filter
            (fun e => isMatchingFilename ci e.name filename)).map
          (fun e => MatchEvent.found pid filename e.path),
         [MatchEvent.walkError rootPath d]) := by
      simp [searchForFile, hab]
    rw [hs]
    exact ⟨rfl, countP_founds_notFound _ _ _⟩
  · intro hst hni
    have hw := walk_no_abort rcv rootPath st children hst hni
    refine ⟨hw, ?_⟩
    simp only [searchForFile, hw]
    by_cases h : ((walk rcv rootPath st children).1.filter
        (fun e => isMatchingFilename ci e.name filename)) = [] <;>
      simp [h, List.isEmpty_iff]

/-- C4 witness: on a root directory whose very opening throws, the stderr
channel carries exactly the one diagnostic and stdout carries no `NotFound`. -/
theorem walk_error_aborts_traversal_witness :
    (searchForFile false true 3 "/r" DirStatus.ioErr FSForest.nil
        "a.txt" "boom").2 = [MatchEvent.walkError "/r" "boom"] ∧
    countNotFound (searchForFile false true 3 "/r" DirStatus.ioErr FSForest.nil
        "a.txt" "boom").1 = 0 :=
  (walk_error_aborts_traversal false true 3 "/r" DirStatus.ioErr FSForest.nil
    "a.txt" "boom").1 (by decide)

/-- C4 counterexample: the subdirectory `d` errors before the sibling regular
file `a.txt` is reached, and the single `try`/`catch` aborts the whole
traversal: the task emits no `Found` for `/r/a.txt` and no terminal
`NotFound` either, so the error does suppress the later emissions the claim
promises. -/
theorem walk_error_suppresses_later_found :
    searchForFile false true 3 "/r" DirStatus.ok
        (FSForest.cons (FSNode.dir "d" DirStatus.ioErr FSForest.nil)
          (FSForest.cons (FSNode.file "a.txt") FSForest.nil)) "a.txt" "boom"
      = ([], [MatchEvent.walkError "/r" "boom"]) := by
  decide

/-- C6: the claim says that with a valid root the run returns success when
every task started (and a failure indicator otherwise).  At this failing
input — valid root, one target, `fork` succeeds — the program instead never
returns any status at all: the semaphore was created with `pshared = 0`, the
forked child's `sem_post` lands in the child's own copy, and the parent's
first `sem_wait` blocks forever.  The code's own comments ("ensure correct
synchronization between parent and child processes", "parent process waits
for all child processes to complete") show the intended semantics is the
claim's; the `pshared = 0` initialisation is the slip. -/
theorem successful_fork_still_never_returns :
    mainRun false false true "/r" DirStatus.ok FSForest.nil ["a.txt"]
      (fun _ => true) (fun _ => 3) "e" = none := by
  decide

/-- C7: the wait-all loop does not terminate once any fork fails — nor, in
fact, for any nonempty target list.  With two targets and the second fork
failing, the parent executes `filenames.size()` = 2 `sem_wait`s while zero
posts ever become visible to it (the started child's `sem_post` on the
`pshared = 0` semaphore increments the child's own copy), although the
claim (and the code's own comment, "parent process waits for all child
processes to complete") intends the parent to block only until every
successfully started task has completed and then return. -/
theorem fork_failure_deadlocks_wait_all :
    mainRun false false true "/r" DirStatus.ok
        (FSForest.cons (FSNode.file "a.txt") FSForest.nil) ["a.txt", "b.txt"]
        (fun i => i == 0) (fun _ => 3) "e" = none := by
  decide

/-- C8 (amended): `Found` renders as
`"<taskId>: <targetName>: <absolutePath>"` and `NotFound` as
`"<taskId>: <targetName>: Not found in <rootDir>"` **with the path component
quoted** (C++ stream insertion of `fs::path` applies `std::quoted`); in
`src/myfind.cpp` the match stream never carries a `WalkError` and the stderr
channel carries nothing but `WalkError` diagnostics.  (The `part_003` variant
violates the channel separation: see the counterexample.) -/
theorem render_formats_and_channels (ci rcv : Bool) (pid : Nat)
    (rootPath : String) (st : DirStatus) (children : FSForest)
    (filename d target path root : String) :
    renderFound pid target path = specRenderFound pid target (cppQuote path) ∧
    renderNotFound pid target root
      = specRenderNotFound pid target (cppQuote root) ∧
    (searchForFile ci rcv pid rootPath st children filename d).1.all
        (fun e => !(isWalkErrorEvent e)) = true ∧
    (searchForFile ci rcv pid rootPath st children filename d).2.all
        isWalkErrorEvent = true := by
  refine ⟨rfl, rfl, ?_, ?_⟩
  · simp only [searchForFile]
    generalize walk rcv rootPath st children = w
    obtain ⟨entries, ab⟩ := w
    cases ab with
    | true =>
        rw [if_pos rfl]
        exact founds_no_walkError _ pid filename
    | false =>
        rw [if_neg (by simp)]
        by_cases h :
            entries.filter (fun e => isMatchingFilename ci e.name filename) = []
        · simp [h, isWalkErrorEvent]
        · rw [if_neg (by simpa [List.isEmpty_iff] using h)]
          exact founds_no_walkError _ pid filename
  · simp only [searchForFile]
    generalize walk rcv rootPath st children = w
    obtain ⟨entries, ab⟩ := w
    cases ab with
    | true =>
        rw [if_pos rfl]
        simp [isWalkErrorEvent]
    | false =>
        rw [if_neg (by simp)]
        by_cases h :
            entries.filter (fun e => isMatchingFilename ci e.name filename) = []
        · simp [h]
        · rw [if_neg (by simpa [List.isEmpty_iff] using h)]
          simp

/-- C8 counterexample: the actual `Found` line quotes the path, so it differs
from the claim's exact format; and in the `part_003` variant the walk-error
diagnostic is written into the task's buffered output, which the parent
replays onto the match stream (stdout), not onto a distinct error channel. -/
theorem render_format_quotes_paths :
    renderFound 5 "a.txt" "/r/a.txt" = "5: a.txt: \"/r/a.txt\"" ∧
    renderFound 5 "a.txt" "/r/a.txt" ≠ specRenderFound 5 "a.txt" "/r/a.txt" ∧
    (part003Run false true true "/r" DirStatus.ok
        (FSForest.cons (FSNode.dir "d" DirStatus.ioErr FSForest.nil)
          FSForest.nil) ["a.txt"] (fun _ => true) (fun _ => 5)
        "boom").stdoutLines
      = [renderWalkError "/r" "boom"] := by
  decide

/-- C9 (amended): the `src/myfind.cpp` core touches no files at all — every
run creates nothing and leaves nothing behind; the `part_003` variant does
buffer results in temporary files during the run (see the counterexample),
though it removes them all before returning, so neither variant leaves files
behind. -/
theorem no_files_left_behind (ci rcv rv : Bool) (rootPath : String)
    (st : DirStatus) (children : FSForest) (filenames : List String)
    (forkOk : Nat → Bool) (pidOf : Nat → Nat) (d : String) :
    (∀ r : RunResult,
        mainRun ci rcv rv rootPath st children filenames forkOk pidOf d
          = some r →
        r.filesCreated = [] ∧ r.filesLeftBehind = []) ∧
    (part003Run ci rcv rv rootPath st children filenames forkOk pidOf
        d).filesLeftBehind = [] := by
  constructor
  · intro r hr
    simp only [mainRun] at hr
    split at hr
    · split at hr
      · obtain rfl : _ = r := Option.some.inj hr
        exact ⟨rfl, rfl⟩
      · exact absurd hr (by simp)
    · obtain rfl : _ = r := Option.some.inj hr
      exact ⟨rfl, rfl⟩
  · simp only [part003Run]
    split <;> rfl

/-- C9 witness: a concrete returning run of the `src/myfind.cpp` model — a
valid root with an empty target list, the one shape whose fan-in performs
zero waits and so returns — whose result record shows an empty filesystem
footprint. -/
theorem no_files_left_behind_witness :
    RunResult.filesCreated
        { exitCode := 0, workersStarted := 0
          stdoutLines := [], stderrLines := []
          filesCreated := [], filesLeftBehind := [] } = [] ∧
    RunResult.filesLeftBehind
        { exitCode := 0, workersStarted := 0
          stdoutLines := [], stderrLines := []
          filesCreated := [], filesLeftBehind := [] } = [] :=
  (no_files_left_behind false false true "/r" DirStatus.ok FSForest.nil
      [] (fun _ => true) (fun _ => 3) "e").1 _ (by decide)

/-- C9 counterexample: a `part_003` run with one started task creates the
temporary buffer file `/tmp/myfind_5.log` during the run — the claim that the
core creates no files and uses no temporary-file buffering fails on this
variant. -/
theorem part003_creates_temp_files :
    (part003Run false false true "/r" DirStatus.ok FSForest.nil ["a.txt"]
        (fun _ => true) (fun _ => 5) "e").filesCreated = [tempFileName 5] ∧
    tempFileName 5 = "/tmp/myfind_5.log" := by
  decide

end Myfind
